import Mathlib

/-
Verification of the dynamodb_benchmark repository (Go).

The development shallowly embeds the benchmark engine found in
src/unnamed/part_000 and src/benchmark/main.go: the retry executor, the
per-strategy worker loops (read, write-condition, write-condition-with-get,
write-transaction), the DynamoDB update/condition expressions each strategy
attaches to its requests, the idempotency-token construction of the
transactional strategy, the startup validation in main, and the summary
computation in Run.

Modelling conventions:
  - Network calls are abstracted by outcome oracles: a call that the Go code
    performs at a given (worker, iteration, attempt) position receives its
    result from an oracle function indexed by that position.  An outcome is
    `Option String` (none = nil error, some e = the error message e), matching
    the Go `error` values flowing through the code.
  - Go int64 values are modelled as Int, Go uint32 counters as Nat.  No claim
    under verification depends on wrap-around, so the 2^w reductions are
    omitted.  Go integer division / remainder truncate toward zero and are
    modelled by Int.tdiv / Int.tmod.
  - The shared counters are updated only through atomic adds
    (sync/atomic.AddUint32), so the run-final value of each counter equals the
    sum of the per-worker contributions regardless of scheduling; runs are
    therefore modelled as sums/folds of per-worker results.
  - time.Now() reads are modelled by explicit instant parameters (nanoseconds
    since the epoch, as Go UnixNano).
-/

namespace DynBench

/-- The Item record decoded from DynamoDB responses (part_000 lines 60-64):
id (string key), Age and Ver (both Go int64). -/
structure Item where
  idv : String
  age : Int
  ver : Int
deriving DecidableEq

/-- The Item{} zero value, which is also what UnmarshalMap leaves in place
when the response carries no item attributes (empty map). -/
def emptyItem : Item := ⟨"", 0, 0⟩

/-- The composite error built by retry when all attempts fail
(part_000 line 80): fmt.Errorf("after %d attempts, last error: %s", attempts, err). -/
def retryAfterMsg (attempts : Nat) (e : String) : String :=
  "after " ++ toString attempts ++ " attempts, last error: " ++ e

/-- Loop body of retry (part_000 lines 67-79).  `i` is the Go loop counter,
`rem` the number of loop iterations still allowed before the `i >= attempts-1`
break fires, i.e. rem = attempts - 1 - i at every call.  `f j` is the outcome
of the j-th invocation of the wrapped operation.  Returns the resulting error
together with the number of invocations performed. -/
def retryGo (f : Nat → Option String) (attempts : Nat) : Nat → Nat → Option String × Nat
  | i, 0 =>
    match f i with
    | none => (none, i + 1)
    | some e => (some (retryAfterMsg attempts e), i + 1)
  | i, rem + 1 =>
    match f i with
    | none => (none, i + 1)
    | some _ => retryGo f attempts (i + 1) rem

/-- retry(attempts, sleep, f) from part_000 lines 66-81 (identical in
src/benchmark/main.go lines 63-78).  The sleep between attempts and the
"retrying after error" diagnostic are side effects without influence on the
result and are not modelled.  Returns (error, number of invocations of f). -/
def retry (attempts : Nat) (f : Nat → Option String) : Option String × Nat :=
  retryGo f attempts 0 (attempts - 1)

/-- The four shared run counters (Run, part_000 lines 105-108): successCount,
errorCount, successGetCount, errorGetCount.  Go uint32, updated only through
sync/atomic.AddUint32; modelled as Nat. -/
structure Counters where
  success : Nat
  error : Nat
  successGet : Nat
  errorGet : Nat
deriving DecidableEq

/-- Initial counter values (all zero, part_000 lines 105-108). -/
def Counters.zero : Counters := ⟨0, 0, 0, 0⟩

/-- Componentwise sum of counters; because every update is an atomic add, the
run-final shared counters equal the sum of the per-worker contributions. -/
def Counters.add (a b : Counters) : Counters :=
  ⟨a.success + b.success, a.error + b.error,
   a.successGet + b.successGet, a.errorGet + b.errorGet⟩

/-- Outcome of one GetItem attempt inside startWriteWorkerCondition
(part_000 lines 174-176): the error returned by db.GetItem, the error
returned by dynamodbattribute.UnmarshalMap on the response item map, and the
Item the unmarshalling decoded (the Item{} zero value when the response map
is empty, e.g. after a failed GetItem). -/
structure GetOutcome where
  getErr : Option String
  umErr : Option String
  item : Item
deriving DecidableEq

/-- Result of the retried GetItem closure of startWriteWorkerCondition
(part_000 lines 173-200).  The closure assigns derr from db.GetItem at line
174 and immediately reassigns derr from UnmarshalMap at line 176, so the
GetItem error is discarded and only the unmarshalling error is returned
(both in the verbose and non-verbose paths, lines 193-200). -/
def getAttemptResult (o : GetOutcome) : Option String :=
  o.umErr

/-- The version observed by an iteration of startWriteWorkerCondition: every
GetItem attempt (also a failing one) stores item.Ver into the shared param's
:ver_value (part_000 lines 179-192), so after the get-step retry returns, the
param holds the Ver decoded by the last executed attempt. -/
def condIterObservedVer (retryNum : Nat) (gets : Nat → GetOutcome) : Int :=
  (gets ((retry retryNum (fun j => getAttemptResult (gets j))).2 - 1)).item.ver

/-- One iteration of startWriteWorkerCondition (part_000 lines 172-237).
gets j is the outcome of the j-th GetItem attempt of this iteration, writes j
the error result of the j-th UpdateItem attempt (none = success).  Input and
output: the counters, and the param's current :ver_value (carried across
iterations because the Go code mutates one shared UpdateItemInput; the first
GetItem attempt always overwrites it before any UpdateItem call).  The third
component lists, for each UpdateItem call issued by this iteration, the
:ver_value the call carried. -/
def condIteration (retryNum : Nat) (gets : Nat → GetOutcome)
    (writes : Nat → Option String) (cs : Counters) (_paramVer : Int) :
    Counters × Int × List Int :=
  if ((retry retryNum (fun j => getAttemptResult (gets j))).1).isSome then
    ({cs with errorGet := cs.errorGet + 1}, condIterObservedVer retryNum gets, [])
  else if ((retry retryNum writes).1).isSome then
    ({cs with successGet := cs.successGet + 1, error := cs.error + 1},
     condIterObservedVer retryNum gets,
     List.replicate (retry retryNum writes).2 (condIterObservedVer retryNum gets))
  else
    ({cs with successGet := cs.successGet + 1, success := cs.success + 1},
     condIterObservedVer retryNum gets,
     List.replicate (retry retryNum writes).2 (condIterObservedVer retryNum gets))

/-- The iterations i = 1..n of one startWriteWorkerCondition worker
(part_000 line 172), threading counters and the shared param. -/
def condWorkerAux (retryNum : Nat) (gets : Nat → Nat → GetOutcome)
    (writes : Nat → Nat → Option String) : Nat → Counters × Int
  | 0 => (Counters.zero, 0)
  | n + 1 =>
    let st := condWorkerAux retryNum gets writes n
    let r := condIteration retryNum (gets (n + 1)) (writes (n + 1)) st.1 st.2
    (r.1, r.2.1)

/-- Run with Action defaulting to startWriteWorkerCondition (part_000 lines
114-125): workers 1..c, each performing n iterations; the shared atomic
counters accumulate the per-worker contributions. -/
def condRunAux (retryNum n : Nat) (gets : Nat → Nat → Nat → GetOutcome)
    (writes : Nat → Nat → Nat → Option String) : Nat → Counters
  | 0 => Counters.zero
  | c + 1 =>
    Counters.add (condRunAux retryNum n gets writes c)
      (condWorkerAux retryNum (gets (c + 1)) (writes (c + 1)) n).1

/-- Final counters of a run of the write-condition-with-get action with
concurrency c and n iterations per worker. -/
def condRun (retryNum c n : Nat) (gets : Nat → Nat → Nat → GetOutcome)
    (writes : Nat → Nat → Nat → Option String) : Counters :=
  condRunAux retryNum n gets writes c

/-- One iteration of startReadWorker (part_000 lines 328-350): the retried
GetItem either succeeds (successCount++) or exhausts its retries
(errorCount++).  attempts j is the error result of the j-th GetItem attempt. -/
def readIteration (retryNum : Nat) (attempts : Nat → Option String)
    (cs : Counters) : Counters :=
  if ((retry retryNum attempts).1).isSome then
    {cs with error := cs.error + 1}
  else
    {cs with success := cs.success + 1}

/-- The iterations i = 1..n of one startReadWorker worker. -/
def readWorkerAux (retryNum : Nat) (attempts : Nat → Nat → Option String) :
    Nat → Counters
  | 0 => Counters.zero
  | n + 1 =>
    readIteration retryNum (attempts (n + 1))
      (readWorkerAux retryNum attempts n)

/-- Run with Action "read" (part_000 lines 116-117): workers 1..c. -/
def readRunAux (retryNum n : Nat)
    (attempts : Nat → Nat → Nat → Option String) : Nat → Counters
  | 0 => Counters.zero
  | c + 1 =>
    Counters.add (readRunAux retryNum n attempts c)
      (readWorkerAux retryNum (attempts (c + 1)) n)

/-- Final counters of a run of the read action with concurrency c and n
iterations per worker. -/
def readRun (retryNum c n : Nat)
    (attempts : Nat → Nat → Nat → Option String) : Counters :=
  readRunAux retryNum n attempts c

/-- One iteration of startWriteWorker (part_000 lines 380-408): the retried
UpdateItem either exhausts its retries (errorCount++) or succeeds
(successCount++ and an atomic store of the current wall clock into the shared
lastSuccessedTimeNanoUnix, line 407).  succTime is the UnixNano instant
time.Now() would return at that store. -/
def writeIteration (retryNum : Nat) (attempts : Nat → Option String)
    (succTime : Int) (st : Counters × Int) : Counters × Int :=
  if ((retry retryNum attempts).1).isSome then
    ({st.1 with error := st.1.error + 1}, st.2)
  else
    ({st.1 with success := st.1.success + 1}, succTime)

/-- The iterations i = 1..n of one startWriteWorker worker, threading the
counters and the shared last-success timestamp. -/
def writeWorkerFrom (retryNum : Nat) (attempts : Nat → Nat → Option String)
    (times : Nat → Int) : Nat → Counters × Int → Counters × Int
  | 0, st => st
  | n + 1, st =>
    writeIteration retryNum (attempts (n + 1)) (times (n + 1))
      (writeWorkerFrom retryNum attempts times n st)

/-- Run with Action "write-condition" (part_000 lines 118-119): workers 1..c
over the shared counters and shared lastSuccessedTimeNanoUnix (initially 0,
line 111).  The shared timestamp cell is written only on successful writes;
this sequential threading of the workers fixes one schedule, and every
property proved below about it concerns runs without successful writes, whose
outcome is the same under every schedule (no store ever happens). -/
def writeRunAux (retryNum n : Nat) (attempts : Nat → Nat → Nat → Option String)
    (times : Nat → Nat → Int) : Nat → Counters × Int
  | 0 => (Counters.zero, 0)
  | c + 1 =>
    writeWorkerFrom retryNum (attempts (c + 1)) (times (c + 1)) n
      (writeRunAux retryNum n attempts times c)

/-- Final counters and final shared last-success timestamp of a run of the
write-condition action with concurrency c and n iterations per worker. -/
def writeRun (retryNum c n : Nat) (attempts : Nat → Nat → Nat → Option String)
    (times : Nat → Nat → Int) : Counters × Int :=
  writeRunAux retryNum n attempts times c

/-- Operand of a DynamoDB update or condition expression as used by this
program: either an item attribute reference (age, ver) or an expression
attribute value placeholder such as ":age_minimum_value". -/
inductive Operand
  | attr (name : String)
  | placeholder (name : String)
deriving DecidableEq

/-- Condition expressions occurring in the program: comparisons and AND. -/
inductive CondExpr
  | ge (l r : Operand)
  | gt (l r : Operand)
  | eqc (l r : Operand)
  | and (l r : CondExpr)
deriving DecidableEq

/-- Arithmetic in a SET update action: the program only uses a + b and a - b. -/
inductive ArithOp
  | plus
  | minus
deriving DecidableEq

/-- One action of a SET update expression: target = src op operand. -/
structure SetClause where
  target : String
  src : Operand
  op : ArithOp
  operand : Operand
deriving DecidableEq

/-- An UpdateItem request (likewise the Update element of a
TransactWriteItem) as the strategies build it: the update expression, the
optional condition expression, and the ExpressionAttributeValues.  The N
attribute values are decimal strings in the wire format; they are modelled by
the integers they denote. -/
structure UpdateRequest where
  keyId : String
  updateExpression : List SetClause
  conditionExpression : Option CondExpr
  values : List (String × Int)
deriving DecidableEq

/-- Lookup of an expression attribute value placeholder. -/
def lookupVal (vals : List (String × Int)) (n : String) : Option Int :=
  (vals.find? (fun p => p.1 = n)).map (fun p => p.2)

/-- Value of an item attribute referenced by an expression. -/
def attrVal (it : Item) : String → Option Int
  | "age" => some it.age
  | "ver" => some it.ver
  | _ => none

/-- Evaluation of an operand against an item and the request's values. -/
def evalOperand (it : Item) (vals : List (String × Int)) : Operand → Option Int
  | .attr n => attrVal it n
  | .placeholder n => lookupVal vals n

/-- Server-side evaluation of a condition expression against the current
item. -/
def evalCondExpr (it : Item) (vals : List (String × Int)) : CondExpr → Option Bool
  | .ge l r => do pure (decide ((← evalOperand it vals l) ≥ (← evalOperand it vals r)))
  | .gt l r => do pure (decide ((← evalOperand it vals l) > (← evalOperand it vals r)))
  | .eqc l r => do pure (decide ((← evalOperand it vals l) = (← evalOperand it vals r)))
  | .and l r => do pure ((← evalCondExpr it vals l) && (← evalCondExpr it vals r))

/-- Write v into the named attribute of the item. -/
def setAttr (it : Item) (n : String) (v : Int) : Option Item :=
  match n with
  | "age" => some {it with age := v}
  | "ver" => some {it with ver := v}
  | _ => none

/-- Apply one SET action; all operands are read from the pre-update item
`old`, DynamoDB SET actions referring to the values before the update. -/
def applyClause (old : Item) (vals : List (String × Int)) (acc : Item)
    (cl : SetClause) : Option Item := do
  let a ← evalOperand old vals cl.src
  let b ← evalOperand old vals cl.operand
  setAttr acc cl.target (match cl.op with | .plus => a + b | .minus => a - b)

/-- Apply a whole SET update expression. -/
def applyUpdateExpr (old : Item) (vals : List (String × Int))
    (clauses : List SetClause) : Option Item :=
  clauses.foldlM (applyClause old vals) old

/-- The error DynamoDB reports when a condition expression evaluates to
false. -/
def condFailedMsg : String :=
  "ConditionalCheckFailedException: The conditional request failed"

/-- Server-side semantics of an UpdateItem call built by the program: check
the condition expression (absent means unconditional), then apply the update
expression. -/
def updateItem (it : Item) (r : UpdateRequest) : Except String Item :=
  match (match r.conditionExpression with
         | none => some true
         | some c => evalCondExpr it r.values c) with
  | none => .error "ValidationException"
  | some false => .error condFailedMsg
  | some true =>
    match applyUpdateExpr it r.values r.updateExpression with
    | none => .error "ValidationException"
    | some it2 => .ok it2

/-- The update expression shared by all three write strategies
(part_000 lines 161, 258 and 365):
"set age = age - :age_decrement_value, ver = ver + :ver_increment_value". -/
def decrementUpdateExpr : List SetClause :=
  [⟨"age", .attr "age", .minus, .placeholder ":age_decrement_value"⟩,
   ⟨"ver", .attr "ver", .plus, .placeholder ":ver_increment_value"⟩]

/-- The UpdateItemInput built by startWriteWorker for action
"write-condition" (part_000 lines 358-379): condition
"age >= :age_minimum_value" with :age_minimum_value = c.Condition. -/
def writeConditionRequest (idv : String) (condition : Int) : UpdateRequest :=
  { keyId := idv
    updateExpression := decrementUpdateExpr
    conditionExpression :=
      some (.ge (.attr "age") (.placeholder ":age_minimum_value"))
    values := [(":age_decrement_value", 1), (":ver_increment_value", 1),
               (":age_minimum_value", condition)] }

/-- The UpdateItemInput built per GetItem attempt by
startWriteWorkerCondition (part_000 lines 154-192, identically
src/benchmark/main.go lines 130-168): condition
"ver = :ver_value AND age >= :age_minimum_value" where :ver_value is the Ver
the read step observed and :age_minimum_value = c.Condition. -/
def writeConditionWithGetRequest (idv : String) (condition observedVer : Int) :
    UpdateRequest :=
  { keyId := idv
    updateExpression := decrementUpdateExpr
    conditionExpression :=
      some (.and (.eqc (.attr "ver") (.placeholder ":ver_value"))
                 (.ge (.attr "age") (.placeholder ":age_minimum_value")))
    values := [(":age_decrement_value", 1), (":ver_increment_value", 1),
               (":ver_value", observedVer), (":age_minimum_value", condition)] }

/-- The single Update of the TransactWriteItemsInput built by
startWriteWorkerTransaction (part_000 lines 248-278): condition
"age > :age_min_value" with :age_min_value = 0. -/
def writeTransactionUpdate (idv : String) : UpdateRequest :=
  { keyId := idv
    updateExpression := decrementUpdateExpr
    conditionExpression := some (.gt (.attr "age") (.placeholder ":age_min_value"))
    values := [(":age_decrement_value", 1), (":ver_increment_value", 1),
               (":age_min_value", 0)] }

/-- The ClientRequestToken built by twii in startWriteWorkerTransaction
(part_000 line 246): FormatInt(unixTime,10) + "_" + Itoa(id) + "_" + Itoa(i)
+ "_" + RandomString(10).  suffix is the RandomString(10) result consumed by
this particular construction. -/
def clientRequestToken (unixTime : Int) (workerId i : Nat) (suffix : String) :
    String :=
  toString unixTime ++ "_" ++ toString workerId ++ "_" ++ toString i ++ "_" ++ suffix

/-- One iteration i of startWriteWorkerTransaction (part_000 lines 282-312).
The retried closure calls twii(i) on every invocation (line 287), so each
attempt builds a fresh ClientRequestToken, consuming the next RandomString
result.  rand m is the m-th string the global RandomString(10) source
produces, p the number of RandomString results consumed before this
iteration, outcomes j the error result of the j-th TransactWriteItems
attempt.  Returns the tokens submitted by the successive attempts of this
iteration, the new rand position, and the iteration's error result. -/
def txnIteration (retryNum : Nat) (unixTime : Int) (workerId i : Nat)
    (rand : Nat → String) (p : Nat) (outcomes : Nat → Option String) :
    List String × Nat × Option String :=
  let r := retry retryNum outcomes
  ((List.range r.2).map (fun j => clientRequestToken unixTime workerId i (rand (p + j))),
   p + r.2, r.1)

/-- One iteration of the counter bookkeeping of startWriteWorkerTransaction
(part_000 lines 282-312), identical in shape to startWriteWorker: the
retried TransactWriteItems either exhausts its retries (errorCount++) or
succeeds (successCount++ and an atomic store of the wall clock into the
shared timestamp).  The token/rand-position bookkeeping of the iteration is
txnIteration; both are driven by the same retry result here via the
iteration's outcome oracle. -/
def txnWorkerAux (retryNum : Nat) (unixTime : Int) (workerId : Nat)
    (rand : Nat → String) (outcomes : Nat → Nat → Option String)
    (times : Nat → Int) : Nat → Counters × Int × Nat
  | 0 => (Counters.zero, 0, 0)
  | n + 1 =>
    let st := txnWorkerAux retryNum unixTime workerId rand outcomes times n
    let r := txnIteration retryNum unixTime workerId (n + 1) rand st.2.2
      (outcomes (n + 1))
    match r.2.2 with
    | some _ => ({st.1 with error := st.1.error + 1}, st.2.1, r.2.1)
    | none => ({st.1 with success := st.1.success + 1}, times (n + 1), r.2.1)

/-- Run with Action "write-transaction" (part_000 lines 120-121): workers
1..c, the shared atomic counters accumulating the per-worker contributions.
The global math/rand source is shared by all workers; its interleaving is
scheduling-dependent, so each worker is given the subsequence of
RandomString results its own calls consume. -/
def txnRunAux (retryNum n : Nat) (unixTime : Int) (rand : Nat → Nat → String)
    (outcomes : Nat → Nat → Nat → Option String) (times : Nat → Nat → Int) :
    Nat → Counters
  | 0 => Counters.zero
  | c + 1 =>
    Counters.add (txnRunAux retryNum n unixTime rand outcomes times c)
      (txnWorkerAux retryNum unixTime (c + 1) (rand (c + 1)) (outcomes (c + 1))
        (times (c + 1)) n).1

/-- Final counters of a run of the write-transaction action with
concurrency c and n iterations per worker. -/
def txnRun (retryNum c n : Nat) (unixTime : Int) (rand : Nat → Nat → String)
    (outcomes : Nat → Nat → Nat → Option String) (times : Nat → Nat → Int) :
    Counters :=
  txnRunAux retryNum n unixTime rand outcomes times c

/-- Time difference in nanoseconds between two instants (the integer content
of a Go time.Duration). -/
def elapsedNano (startNano now : Int) : Int := now - startNano

/-- The values the summary lines of Run print (part_000 lines 137-146).
Durations are kept at their underlying nanosecond precision; the Seconds()
renderings divide them by 1e9 for display only. -/
structure Summary where
  sent : Nat
  errors : Nat
  sentGet : Nat
  errorsGet : Nat
  durationNano : Int
  averageMs : Int
  lastSucceedDurationNano : Int
deriving DecidableEq

/-- Total number of logical calls counted by the run: the sum of all four
counter categories, as formed at part_000 line 135. -/
def totalLogicalCalls (cs : Counters) : Nat :=
  cs.success + cs.error + cs.successGet + cs.errorGet

/-- The summary epilogue of Run (part_000 lines 128-146).  nowA, nowB and
nowC are the instants delivered by the three successive wall-clock reads:
time.Now() at line 129 and the two time.Since(startTime) calls at lines 132
and 134.  Go's int64 division and remainder truncate toward zero; Int.tdiv
and Int.tmod are their Lean counterparts.  time.Unix(n/1e9, n%1e9) at line
131 denotes the instant with UnixNano n/1e9*1e9 + n%1e9. -/
def runSummary (startNano : Int) (cs : Counters)
    (lastSuccessedTimeNanoUnix : Int) (nowA nowB nowC : Int) : Summary :=
  let last := if lastSuccessedTimeNanoUnix = 0 then nowA
              else lastSuccessedTimeNanoUnix
  let lastSuccessedTimeNano :=
    Int.tdiv last 1000000000 * 1000000000 + Int.tmod last 1000000000
  { sent := cs.success
    errors := cs.error
    sentGet := cs.successGet
    errorsGet := cs.errorGet
    durationNano := elapsedNano startNano nowB
    averageMs := Int.tdiv (Int.tdiv (elapsedNano startNano nowC) 1000000)
      ((cs.success : Int) + (cs.error : Int) + (cs.successGet : Int) + (cs.errorGet : Int))
    lastSucceedDurationNano := lastSuccessedTimeNano - startNano }

/-- The console messages main can print before deciding whether to start the
benchmark (part_000 lines 437-443 and usage at lines 19-22): the
invalid-action diagnostic, the missing-minimum-options diagnostic, and the
usage text printed by usage(). -/
inductive StartupOutput
  | invalidAction
  | invalidMinOptions
  | usageMessage
deriving DecidableEq

/-- Validation section of main (part_000 lines 437-443).  Returns the
messages printed and `some code` when the process exits via os.Exit(code)
before constructing the benchmark (so before any worker is launched), or
`none` when execution reaches s.Run().  An unrecognized action only prints a
diagnostic and continues (lines 437-439, note the source compares against
the misspelling "writ-condition").  Missing table or id prints the
diagnostic and calls usage(), which prints the usage text and calls
os.Exit(0) (lines 19-22). -/
def mainStartup (action tableName id : String) :
    List StartupOutput × Option Nat :=
  let actionDiag : List StartupOutput :=
    if action ≠ "read" ∧ action ≠ "writ-condition" ∧
       action ≠ "write-transaction" ∧ action ≠ "write-condition-with-get" then
      [.invalidAction]
    else []
  if tableName = "" ∨ id = "" then
    (actionDiag ++ [.invalidMinOptions, .usageMessage], some 0)
  else
    (actionDiag, none)

end DynBench

namespace DynBench

theorem retryGo_succeeds (f : Nat → Option String) (attempts : Nat) :
    ∀ rem i k, i ≤ k → k ≤ i + rem →
      (∀ j, i ≤ j → j < k → (f j).isSome) → f k = none →
      retryGo f attempts i rem = (none, k + 1) := by
  intro rem
  induction rem with
  | zero =>
    intro i k hik hk _ hfk
    have : i = k := le_antisymm hik (by omega)
    subst this
    simp [retryGo, hfk]
  | succ rem' ih =>
    intro i k hik hk hfail hfk
    rcases Nat.eq_or_lt_of_le hik with heq | hlt
    · subst heq
      simp [retryGo, hfk]
    · have hsome : (f i).isSome := hfail i le_rfl hlt
      rcases Option.isSome_iff_exists.mp hsome with ⟨e, he⟩
      have := ih (i + 1) k hlt (by omega)
        (fun j hj1 hj2 => hfail j (by omega) hj2) hfk
      simp [retryGo, he, this]

theorem retryGo_all_fail (f : Nat → Option String) (attempts : Nat)
    (hfail : ∀ j, (f j).isSome) :
    ∀ rem i, ∃ e, f (i + rem) = some e ∧
      retryGo f attempts i rem = (some (retryAfterMsg attempts e), i + rem + 1) := by
  intro rem
  induction rem with
  | zero =>
    intro i
    rcases Option.isSome_iff_exists.mp (hfail i) with ⟨e, he⟩
    exact ⟨e, by simpa using he, by simp [retryGo, he]⟩
  | succ rem' ih =>
    intro i
    rcases Option.isSome_iff_exists.mp (hfail i) with ⟨e, he⟩
    rcases ih (i + 1) with ⟨e', he', hgo⟩
    refine ⟨e', by rw [show i + (rem' + 1) = i + 1 + rem' by omega]; exact he', ?_⟩
    simp only [retryGo, he, hgo]
    refine congrArg _ ?_
    omega

theorem retryGo_count_bounds (f : Nat → Option String) (attempts : Nat) :
    ∀ rem i, i + 1 ≤ (retryGo f attempts i rem).2 ∧
      (retryGo f attempts i rem).2 ≤ i + rem + 1 := by
  intro rem
  induction rem with
  | zero =>
    intro i
    cases h : f i <;> simp [retryGo, h]
  | succ rem' ih =>
    intro i
    cases h : f i with
    | none => simp [retryGo, h]
    | some e =>
      have := ih (i + 1)
      simp only [retryGo, h]
      omega

/-- Bounds on the number of invocations retry performs: at least one, at most
max attempts 1. -/
theorem retry_count_bounds (attempts : Nat) (f : Nat → Option String) :
    1 ≤ (retry attempts f).2 ∧ (retry attempts f).2 ≤ max attempts 1 := by
  have := retryGo_count_bounds f attempts (attempts - 1) 0
  unfold retry
  omega

theorem retry_all_fail_isSome (attempts : Nat) (f : Nat → Option String)
    (hfail : ∀ j, (f j).isSome) : ((retry attempts f).1).isSome := by
  rcases retryGo_all_fail f attempts hfail (attempts - 1) 0 with ⟨e, _, hgo⟩
  unfold retry
  rw [hgo]
  rfl

/-- C1: retry executor contract.  For maxAttempts ≥ 1: if the wrapped
operation fails on exactly k consecutive invocations with k < maxAttempts and
then succeeds, retry returns a nil error having invoked the operation exactly
k+1 times; if the operation fails on every invocation, retry invokes it
exactly maxAttempts times and returns the composite error built from the
attempt count and the last underlying error, whose message contains the
decimal rendering of maxAttempts and the last error text. -/
theorem retry_contract (attempts : Nat) (f : Nat → Option String)
    (hatt : 1 ≤ attempts) :
    (∀ k, k < attempts → (∀ i, i < k → (f i).isSome) → f k = none →
      retry attempts f = (none, k + 1)) ∧
    ((∀ i, (f i).isSome) → ∃ e, f (attempts - 1) = some e ∧
      retry attempts f = (some (retryAfterMsg attempts e), attempts) ∧
      ∃ s₁ s₂, retryAfterMsg attempts e = s₁ ++ toString attempts ++ (s₂ ++ e)) := by
  constructor
  · intro k hk hfails hsucc
    exact retryGo_succeeds f attempts (attempts - 1) 0 k (Nat.zero_le k) (by omega)
      (fun j _ hj => hfails j hj) hsucc
  · intro hfail
    rcases retryGo_all_fail f attempts hfail (attempts - 1) 0 with ⟨e, he, hgo⟩
    refine ⟨e, by simpa using he, ?_, "after ", " attempts, last error: ", ?_⟩
    · rw [retry, hgo]
      refine congrArg _ ?_
      omega
    · simp [retryAfterMsg, String.append_assoc]

theorem condIteration_counts (retryNum : Nat) (gets : Nat → GetOutcome)
    (writes : Nat → Option String) (cs : Counters) (pv : Int) :
    (condIteration retryNum gets writes cs pv).1.successGet
        + (condIteration retryNum gets writes cs pv).1.errorGet
      = cs.successGet + cs.errorGet + 1 ∧
    (condIteration retryNum gets writes cs pv).1.success
        + (condIteration retryNum gets writes cs pv).1.error
        + (condIteration retryNum gets writes cs pv).1.errorGet
      = cs.success + cs.error + cs.errorGet + 1 := by
  unfold condIteration
  split
  · exact ⟨by simp; omega, by simp; omega⟩
  · split
    · exact ⟨by simp; omega, by simp; omega⟩
    · exact ⟨by simp; omega, by simp; omega⟩

theorem condWorkerAux_counts (retryNum : Nat) (gets : Nat → Nat → GetOutcome)
    (writes : Nat → Nat → Option String) (n : Nat) :
    (condWorkerAux retryNum gets writes n).1.successGet
        + (condWorkerAux retryNum gets writes n).1.errorGet = n ∧
    (condWorkerAux retryNum gets writes n).1.success
        + (condWorkerAux retryNum gets writes n).1.error
        + (condWorkerAux retryNum gets writes n).1.errorGet = n := by
  induction n with
  | zero => simp [condWorkerAux, Counters.zero]
  | succ n ih =>
    have h := condIteration_counts retryNum (gets (n + 1)) (writes (n + 1))
      (condWorkerAux retryNum gets writes n).1 (condWorkerAux retryNum gets writes n).2
    simp only [condWorkerAux]
    omega

theorem condRun_counts (retryNum c n : Nat) (gets : Nat → Nat → Nat → GetOutcome)
    (writes : Nat → Nat → Nat → Option String) :
    (condRun retryNum c n gets writes).successGet
        + (condRun retryNum c n gets writes).errorGet = c * n ∧
    (condRun retryNum c n gets writes).success
        + (condRun retryNum c n gets writes).error
        + (condRun retryNum c n gets writes).errorGet = c * n := by
  unfold condRun
  induction c with
  | zero => simp [condRunAux, Counters.zero]
  | succ c ih =>
    have h := condWorkerAux_counts retryNum (gets (c + 1)) (writes (c + 1)) n
    simp only [condRunAux, Counters.add]
    rw [Nat.succ_mul]
    omega

theorem readWorkerAux_counts (retryNum : Nat)
    (attempts : Nat → Nat → Option String) (n : Nat) :
    (readWorkerAux retryNum attempts n).success
        + (readWorkerAux retryNum attempts n).error = n ∧
    (readWorkerAux retryNum attempts n).successGet = 0 ∧
    (readWorkerAux retryNum attempts n).errorGet = 0 := by
  induction n with
  | zero => simp [readWorkerAux, Counters.zero]
  | succ n ih =>
    simp only [readWorkerAux, readIteration]
    split
    · simp only []
      omega
    · simp only []
      omega

theorem readRun_counts (retryNum c n : Nat)
    (attempts : Nat → Nat → Nat → Option String) :
    (readRun retryNum c n attempts).success
        + (readRun retryNum c n attempts).error = c * n ∧
    (readRun retryNum c n attempts).successGet = 0 ∧
    (readRun retryNum c n attempts).errorGet = 0 := by
  unfold readRun
  induction c with
  | zero => simp [readRunAux, Counters.zero]
  | succ c ih =>
    have h := readWorkerAux_counts retryNum (attempts (c + 1)) n
    simp only [readRunAux, Counters.add]
    rw [Nat.succ_mul]
    omega

theorem writeIteration_counts (retryNum : Nat) (attempts : Nat → Option String)
    (succTime : Int) (st : Counters × Int) :
    (writeIteration retryNum attempts succTime st).1.success
        + (writeIteration retryNum attempts succTime st).1.error
      = st.1.success + st.1.error + 1 ∧
    (writeIteration retryNum attempts succTime st).1.successGet
      = st.1.successGet ∧
    (writeIteration retryNum attempts succTime st).1.errorGet
      = st.1.errorGet := by
  unfold writeIteration
  split
  · exact ⟨by simp; omega, by simp, by simp⟩
  · exact ⟨by simp; omega, by simp, by simp⟩

theorem writeWorkerFrom_counts (retryNum : Nat)
    (attempts : Nat → Nat → Option String) (times : Nat → Int) (n : Nat)
    (st : Counters × Int) :
    (writeWorkerFrom retryNum attempts times n st).1.success
        + (writeWorkerFrom retryNum attempts times n st).1.error
      = st.1.success + st.1.error + n ∧
    (writeWorkerFrom retryNum attempts times n st).1.successGet
      = st.1.successGet ∧
    (writeWorkerFrom retryNum attempts times n st).1.errorGet
      = st.1.errorGet := by
  induction n with
  | zero => exact ⟨rfl, rfl, rfl⟩
  | succ n ih =>
    have h := writeIteration_counts retryNum (attempts (n + 1)) (times (n + 1))
      (writeWorkerFrom retryNum attempts times n st)
    simp only [writeWorkerFrom]
    omega

theorem writeRun_counts (retryNum c n : Nat)
    (attempts : Nat → Nat → Nat → Option String) (times : Nat → Nat → Int) :
    (writeRun retryNum c n attempts times).1.success
        + (writeRun retryNum c n attempts times).1.error = c * n ∧
    (writeRun retryNum c n attempts times).1.successGet = 0 ∧
    (writeRun retryNum c n attempts times).1.errorGet = 0 := by
  unfold writeRun
  induction c with
  | zero => simp [writeRunAux, Counters.zero]
  | succ c ih =>
    have h := writeWorkerFrom_counts retryNum (attempts (c + 1)) (times (c + 1))
      n (writeRunAux retryNum n attempts times c)
    simp only [writeRunAux]
    rw [Nat.succ_mul]
    omega

theorem txnWorkerAux_counts (retryNum : Nat) (unixTime : Int) (workerId : Nat)
    (rand : Nat → String) (outcomes : Nat → Nat → Option String)
    (times : Nat → Int) (n : Nat) :
    (txnWorkerAux retryNum unixTime workerId rand outcomes times n).1.success
        + (txnWorkerAux retryNum unixTime workerId rand outcomes times n).1.error
      = n ∧
    (txnWorkerAux retryNum unixTime workerId rand outcomes times n).1.successGet
      = 0 ∧
    (txnWorkerAux retryNum unixTime workerId rand outcomes times n).1.errorGet
      = 0 := by
  induction n with
  | zero => exact ⟨rfl, rfl, rfl⟩
  | succ n ih =>
    simp only [txnWorkerAux]
    split
    · simp only []
      omega
    · simp only []
      omega

theorem txnRun_counts (retryNum c n : Nat) (unixTime : Int)
    (rand : Nat → Nat → String) (outcomes : Nat → Nat → Nat → Option String)
    (times : Nat → Nat → Int) :
    (txnRun retryNum c n unixTime rand outcomes times).success
        + (txnRun retryNum c n unixTime rand outcomes times).error = c * n ∧
    (txnRun retryNum c n unixTime rand outcomes times).successGet = 0 ∧
    (txnRun retryNum c n unixTime rand outcomes times).errorGet = 0 := by
  unfold txnRun
  induction c with
  | zero => simp [txnRunAux, Counters.zero]
  | succ c ih =>
    have h := txnWorkerAux_counts retryNum unixTime (c + 1) (rand (c + 1))
      (outcomes (c + 1)) (times (c + 1)) n
    simp only [txnRunAux, Counters.add]
    rw [Nat.succ_mul]
    omega

/-- C3 (amended): for every configuration with concurrency ≥ 1 and
iterations ≥ 1 and every sequence of per-call outcomes, each counter
category of the chosen action's strategy sums to concurrency * iterations
exactly when every iteration reaches it: the read action satisfies
successCount + errorCount = concurrency * iterations, and so do the
write-condition and write-transaction actions (each with untouched get
counters); the read-then-conditional-write action satisfies
successGetCount + errorGetCount = concurrency * iterations for its read-step
pair, while its write-step pair satisfies successCount + errorCount =
successGetCount, because an iteration whose read step exhausts its retries
skips the write step entirely. -/
theorem counter_sums_amended (retryNum c n : Nat) (hc : 1 ≤ c) (hn : 1 ≤ n)
    (gets : Nat → Nat → Nat → GetOutcome)
    (writes : Nat → Nat → Nat → Option String)
    (reads : Nat → Nat → Nat → Option String)
    (wattempts : Nat → Nat → Nat → Option String) (wtimes : Nat → Nat → Int)
    (unixTime : Int) (rand : Nat → Nat → String)
    (txnOutcomes : Nat → Nat → Nat → Option String)
    (txnTimes : Nat → Nat → Int) :
    (readRun retryNum c n reads).success + (readRun retryNum c n reads).error
        = c * n ∧
    (readRun retryNum c n reads).successGet = 0 ∧
    (readRun retryNum c n reads).errorGet = 0 ∧
    (writeRun retryNum c n wattempts wtimes).1.success
        + (writeRun retryNum c n wattempts wtimes).1.error = c * n ∧
    (writeRun retryNum c n wattempts wtimes).1.successGet = 0 ∧
    (writeRun retryNum c n wattempts wtimes).1.errorGet = 0 ∧
    (txnRun retryNum c n unixTime rand txnOutcomes txnTimes).success
        + (txnRun retryNum c n unixTime rand txnOutcomes txnTimes).error
      = c * n ∧
    (txnRun retryNum c n unixTime rand txnOutcomes txnTimes).successGet = 0 ∧
    (txnRun retryNum c n unixTime rand txnOutcomes txnTimes).errorGet = 0 ∧
    (condRun retryNum c n gets writes).successGet
        + (condRun retryNum c n gets writes).errorGet = c * n ∧
    (condRun retryNum c n gets writes).success
        + (condRun retryNum c n gets writes).error
      = (condRun retryNum c n gets writes).successGet := by
  have hr := readRun_counts retryNum c n reads
  have hw := writeRun_counts retryNum c n wattempts wtimes
  have ht := txnRun_counts retryNum c n unixTime rand txnOutcomes txnTimes
  have hcnd := condRun_counts retryNum c n gets writes
  refine ⟨hr.1, hr.2.1, hr.2.2, hw.1, hw.2.1, hw.2.2, ht.1, ht.2.1, ht.2.2,
    hcnd.1, ?_⟩
  omega

/-- Counterexample to C3 as stated: with concurrency = 1, iterations = 1,
retryNum = 1 and a read step whose single GetItem attempt fails to unmarshal,
the write-step pair of the read-then-conditional-write action sums to 0, not
to concurrency * iterations = 1. -/
theorem counter_sums_counterexample :
    (condRun 1 1 1 (fun _ _ _ => ⟨none, some "unmarshal error", emptyItem⟩)
        (fun _ _ _ => none)).success
      + (condRun 1 1 1 (fun _ _ _ => ⟨none, some "unmarshal error", emptyItem⟩)
        (fun _ _ _ => none)).error = 0 ∧
    (0 : Nat) ≠ 1 * 1 := by
  constructor
  · rfl
  · decide

/-- Witness for C3 (amended) at concurrency = 1, iterations = 1,
retryNum = 1 and concrete outcome oracles for all four actions. -/
theorem counter_sums_witness :
    (readRun 1 1 1 (fun _ _ _ => none)).success
        + (readRun 1 1 1 (fun _ _ _ => none)).error = 1 * 1 ∧
    (readRun 1 1 1 (fun _ _ _ => none)).successGet = 0 ∧
    (readRun 1 1 1 (fun _ _ _ => none)).errorGet = 0 ∧
    (writeRun 1 1 1 (fun _ _ _ => some "E") (fun _ _ => 0)).1.success
        + (writeRun 1 1 1 (fun _ _ _ => some "E") (fun _ _ => 0)).1.error = 1 * 1 ∧
    (writeRun 1 1 1 (fun _ _ _ => some "E") (fun _ _ => 0)).1.successGet = 0 ∧
    (writeRun 1 1 1 (fun _ _ _ => some "E") (fun _ _ => 0)).1.errorGet = 0 ∧
    (txnRun 1 1 1 0 (fun _ _ => "aaaaaaaaaa") (fun _ _ _ => none) (fun _ _ => 0)).success
        + (txnRun 1 1 1 0 (fun _ _ => "aaaaaaaaaa") (fun _ _ _ => none) (fun _ _ => 0)).error
      = 1 * 1 ∧
    (txnRun 1 1 1 0 (fun _ _ => "aaaaaaaaaa") (fun _ _ _ => none) (fun _ _ => 0)).successGet = 0 ∧
    (txnRun 1 1 1 0 (fun _ _ => "aaaaaaaaaa") (fun _ _ _ => none) (fun _ _ => 0)).errorGet = 0 ∧
    (condRun 1 1 1 (fun _ _ _ => ⟨none, none, emptyItem⟩) (fun _ _ _ => none)).successGet
        + (condRun 1 1 1 (fun _ _ _ => ⟨none, none, emptyItem⟩) (fun _ _ _ => none)).errorGet
      = 1 * 1 ∧
    (condRun 1 1 1 (fun _ _ _ => ⟨none, none, emptyItem⟩) (fun _ _ _ => none)).success
        + (condRun 1 1 1 (fun _ _ _ => ⟨none, none, emptyItem⟩) (fun _ _ _ => none)).error
      = (condRun 1 1 1 (fun _ _ _ => ⟨none, none, emptyItem⟩) (fun _ _ _ => none)).successGet :=
  counter_sums_amended 1 1 1 (by decide) (by decide)
    (fun _ _ _ => ⟨none, none, emptyItem⟩) (fun _ _ _ => none) (fun _ _ _ => none)
    (fun _ _ _ => some "E") (fun _ _ => 0)
    0 (fun _ _ => "aaaaaaaaaa") (fun _ _ _ => none) (fun _ _ => 0)

/-- C6 (amended): within one logical iteration of the
read-then-conditional-write strategy the conditional update is re-attempted
by the retry executor up to retryNum times, every attempt carrying the same
observed version captured by this iteration's read step (never a refreshed
one); the iteration contributes exactly one outcome to the counters (a write
error when the update retries are exhausted), and only a fresh iteration,
beginning with a new read, issues a conditional update with a newly observed
version.  With retryNum = 1 the claim holds as stated. -/
theorem stale_version_retry_amended (retryNum : Nat) (hr : 1 ≤ retryNum)
    (gets : Nat → GetOutcome) (writes : Nat → Option String)
    (cs : Counters) (pv : Int) :
    (∀ v ∈ (condIteration retryNum gets writes cs pv).2.2,
        v = condIterObservedVer retryNum gets) ∧
    (condIteration retryNum gets writes cs pv).2.2.length ≤ retryNum ∧
    (condIteration retryNum gets writes cs pv).1.success
        + (condIteration retryNum gets writes cs pv).1.error
        + (condIteration retryNum gets writes cs pv).1.errorGet
      = cs.success + cs.error + cs.errorGet + 1 := by
  refine ⟨?_, ?_, (condIteration_counts retryNum gets writes cs pv).2⟩
  · intro v hv
    unfold condIteration at hv
    split at hv
    · simp at hv
    · split at hv
      · exact List.eq_of_mem_replicate hv
      · exact List.eq_of_mem_replicate hv
  · have hb := retry_count_bounds retryNum writes
    unfold condIteration
    split
    · simp
    · split
      · simp only [List.length_replicate]
        omega
      · simp only [List.length_replicate]
        omega

/-- Counterexample to C6 as stated: with retryNum = 2, a read step observing
version 7 and an UpdateItem that fails its condition check, the same logical
iteration issues two UpdateItem calls, both carrying the same stale observed
version 7 — the write IS re-attempted against the stale version within the
iteration. -/
theorem stale_version_retry_counterexample :
    (condIteration 2 (fun _ => ⟨none, none, ⟨"foo", 3, 7⟩⟩)
        (fun _ => some condFailedMsg) Counters.zero 0).2.2 = [7, 7] ∧
    1 < (condIteration 2 (fun _ => ⟨none, none, ⟨"foo", 3, 7⟩⟩)
        (fun _ => some condFailedMsg) Counters.zero 0).2.2.length := by
  exact ⟨rfl, by decide⟩

/-- Witness for C6 (amended) at retryNum = 1 with concrete oracles. -/
theorem stale_version_retry_witness :
    (condIteration 1 (fun _ => ⟨none, none, emptyItem⟩) (fun _ => none)
        Counters.zero 0).2.2.length ≤ 1 ∧
    (condIteration 1 (fun _ => ⟨none, none, emptyItem⟩) (fun _ => none)
        Counters.zero 0).1.success
      + (condIteration 1 (fun _ => ⟨none, none, emptyItem⟩) (fun _ => none)
        Counters.zero 0).1.error
      + (condIteration 1 (fun _ => ⟨none, none, emptyItem⟩) (fun _ => none)
        Counters.zero 0).1.errorGet
      = Counters.zero.success + Counters.zero.error + Counters.zero.errorGet + 1 :=
  ⟨(stale_version_retry_amended 1 (by decide) (fun _ => ⟨none, none, emptyItem⟩)
      (fun _ => none) Counters.zero 0).2.1,
   (stale_version_retry_amended 1 (by decide) (fun _ => ⟨none, none, emptyItem⟩)
      (fun _ => none) Counters.zero 0).2.2⟩

theorem retry_const_none (attempts : Nat) :
    retry attempts (fun _ => none) = (none, 1) := by
  unfold retry
  cases h : attempts - 1 <;> simp [retryGo]

/-- C9: in the read-then-conditional-write strategy a transport/service error
returned by GetItem is discarded — the attempt result depends only on the
unmarshalling outcome — so an iteration whose GetItem calls all fail while
the empty responses unmarshal cleanly (to the zero Item) counts a read-step
success, leaves the read-error counter unchanged, and issues at least one
conditional update carrying observed version 0. -/
theorem get_error_discarded (e : String) (retryNum : Nat)
    (writes : Nat → Option String) (cs : Counters) (pv : Int) :
    (∀ o₁ o₂ : GetOutcome, o₁.umErr = o₂.umErr →
        getAttemptResult o₁ = getAttemptResult o₂) ∧
    (condIteration retryNum (fun _ => ⟨some e, none, emptyItem⟩) writes cs pv).1.successGet
      = cs.successGet + 1 ∧
    (condIteration retryNum (fun _ => ⟨some e, none, emptyItem⟩) writes cs pv).1.errorGet
      = cs.errorGet ∧
    1 ≤ (condIteration retryNum (fun _ => ⟨some e, none, emptyItem⟩) writes cs pv).2.2.length ∧
    (∀ v ∈ (condIteration retryNum (fun _ => ⟨some e, none, emptyItem⟩) writes cs pv).2.2,
        v = 0) := by
  have hget : retry retryNum
      (fun j => getAttemptResult ((fun _ => (⟨some e, none, emptyItem⟩ : GetOutcome)) j))
      = (none, 1) := retry_const_none retryNum
  have hwb := retry_count_bounds retryNum writes
  refine ⟨fun _ _ h => h, ?_, ?_, ?_, ?_⟩ <;>
    unfold condIteration <;>
    rw [hget] <;>
    simp only [Option.isSome_none, Bool.false_eq_true, if_false]
  · split <;> simp
  · split <;> simp
  · split <;> simp only [List.length_replicate] <;> omega
  · split <;>
      · intro v hv
        have := List.eq_of_mem_replicate hv
        simpa [condIterObservedVer, hget, emptyItem] using this

/-- Witness for C9 at retryNum = 1, a concrete transport error and an
always-succeeding UpdateItem. -/
theorem get_error_discarded_witness :
    (condIteration 1 (fun _ => ⟨some "RequestError", none, emptyItem⟩)
        (fun _ => none) Counters.zero 5).1.successGet
      = Counters.zero.successGet + 1 ∧
    1 ≤ (condIteration 1 (fun _ => ⟨some "RequestError", none, emptyItem⟩)
        (fun _ => none) Counters.zero 5).2.2.length :=
  ⟨(get_error_discarded "RequestError" 1 (fun _ => none) Counters.zero 5).2.1,
   (get_error_discarded "RequestError" 1 (fun _ => none) Counters.zero 5).2.2.2.1⟩

theorem writeIteration_all_fail (retryNum : Nat) (attempts : Nat → Option String)
    (succTime : Int) (st : Counters × Int)
    (hfail : ∀ j, (attempts j).isSome) :
    writeIteration retryNum attempts succTime st
      = ({st.1 with error := st.1.error + 1}, st.2) := by
  unfold writeIteration
  rw [if_pos (retry_all_fail_isSome retryNum attempts hfail)]

theorem writeWorkerFrom_all_fail (retryNum : Nat)
    (attempts : Nat → Nat → Option String) (times : Nat → Int) (n : Nat)
    (st : Counters × Int) (hfail : ∀ i j, (attempts i j).isSome) :
    (writeWorkerFrom retryNum attempts times n st).2 = st.2 := by
  induction n with
  | zero => rfl
  | succ n ih =>
    simp only [writeWorkerFrom]
    rw [writeIteration_all_fail retryNum (attempts (n + 1)) (times (n + 1)) _
      (hfail (n + 1))]
    exact ih

theorem writeRun_all_fail_last (retryNum c n : Nat)
    (attempts : Nat → Nat → Nat → Option String) (times : Nat → Nat → Int)
    (hfail : ∀ w i j, (attempts w i j).isSome) :
    (writeRun retryNum c n attempts times).2 = 0 := by
  unfold writeRun
  induction c with
  | zero => rfl
  | succ c ih =>
    simp only [writeRunAux]
    rw [writeWorkerFrom_all_fail retryNum (attempts (c + 1)) (times (c + 1)) n _
      (hfail (c + 1))]
    exact ih

/-- C10: in a run of the write-condition strategy in which every UpdateItem
attempt fails, the shared last-success timestamp keeps its zero initial
value, and the summary's Last Succeed Duration is then computed from the
wall-clock instant read at summary time (part_000 line 129), so it equals the
elapsed run duration at that instant — strictly positive once any time has
passed since the start — rather than zero. -/
theorem last_succeed_duration_no_success (retryNum c n : Nat)
    (attempts : Nat → Nat → Nat → Option String) (times : Nat → Nat → Int)
    (startNano nowA nowB nowC : Int)
    (hfail : ∀ w i j, (attempts w i j).isSome) (hnow : startNano < nowA) :
    (writeRun retryNum c n attempts times).2 = 0 ∧
    (runSummary startNano (writeRun retryNum c n attempts times).1
        (writeRun retryNum c n attempts times).2 nowA nowB nowC).lastSucceedDurationNano
      = elapsedNano startNano nowA ∧
    0 < (runSummary startNano (writeRun retryNum c n attempts times).1
        (writeRun retryNum c n attempts times).2 nowA nowB nowC).lastSucceedDurationNano := by
  have h0 := writeRun_all_fail_last retryNum c n attempts times hfail
  have hrec : Int.tdiv nowA 1000000000 * 1000000000 + Int.tmod nowA 1000000000 = nowA := by
    rw [mul_comm]
    exact Int.tdiv_add_tmod nowA 1000000000
  refine ⟨h0, ?_, ?_⟩
  · rw [h0]
    simp only [runSummary, elapsedNano, if_true]
    rw [hrec]
  · rw [h0]
    simp only [runSummary, elapsedNano, if_true]
    rw [hrec]
    omega

/-- Witness for C10 at a concrete failing run and concrete instants. -/
theorem last_succeed_duration_witness :
    (writeRun 1 1 1 (fun _ _ _ => some "E") (fun _ _ => 0)).2 = 0 ∧
    (runSummary 2 (writeRun 1 1 1 (fun _ _ _ => some "E") (fun _ _ => 0)).1
        (writeRun 1 1 1 (fun _ _ _ => some "E") (fun _ _ => 0)).2
        7 8 9).lastSucceedDurationNano = elapsedNano 2 7 ∧
    0 < (runSummary 2 (writeRun 1 1 1 (fun _ _ _ => some "E") (fun _ _ => 0)).1
        (writeRun 1 1 1 (fun _ _ _ => some "E") (fun _ _ => 0)).2
        7 8 9).lastSucceedDurationNano :=
  last_succeed_duration_no_success 1 1 1 (fun _ _ _ => some "E") (fun _ _ => 0)
    2 7 8 9 (fun _ _ _ => rfl) (by decide)

/-- C5: all three write strategies attach the update expression that
decrements age by 1 and increments ver by 1, and the condition predicate
attached is exactly age >= floor for write-condition, ver = observedVer AND
age >= floor for write-condition-with-get, and age > 0 for the transactional
strategy. -/
theorem update_and_condition_semantics (it : Item) (idv : String)
    (floorV v : Int) :
    updateItem it (writeConditionRequest idv floorV)
      = (if floorV ≤ it.age then
           Except.ok {it with age := it.age - 1, ver := it.ver + 1}
         else Except.error condFailedMsg) ∧
    updateItem it (writeConditionWithGetRequest idv floorV v)
      = (if it.ver = v ∧ floorV ≤ it.age then
           Except.ok {it with age := it.age - 1, ver := it.ver + 1}
         else Except.error condFailedMsg) ∧
    updateItem it (writeTransactionUpdate idv)
      = (if 0 < it.age then
           Except.ok {it with age := it.age - 1, ver := it.ver + 1}
         else Except.error condFailedMsg) := by
  refine ⟨?_, ?_, ?_⟩
  · by_cases h : floorV ≤ it.age <;>
      simp [updateItem, writeConditionRequest, decrementUpdateExpr, evalCondExpr,
        evalOperand, attrVal, lookupVal, applyUpdateExpr, applyClause, setAttr,
        List.foldlM, List.find?, h]
  · by_cases h1 : it.ver = v <;> by_cases h2 : floorV ≤ it.age <;>
      simp [updateItem, writeConditionWithGetRequest, decrementUpdateExpr,
        evalCondExpr, evalOperand, attrVal, lookupVal, applyUpdateExpr,
        applyClause, setAttr, List.foldlM, List.find?, h1, h2]
  · by_cases h : 0 < it.age <;>
      simp [updateItem, writeTransactionUpdate, decrementUpdateExpr, evalCondExpr,
        evalOperand, attrVal, lookupVal, applyUpdateExpr, applyClause, setAttr,
        List.foldlM, List.find?, h]

/-- Counterexample to C4 as stated: the write strategy the benchmark binary
runs for action "write" (startWriteWorker of src/benchmark/main.go, the same
code as startWriteWorkerCondition of part_000) always attaches a condition
expression, and applied to a record with age = 5 a successful call yields
age = 4 (a decrement), not 6. -/
theorem unconditional_write_counterexample :
    (writeConditionWithGetRequest "foo" 0 0).conditionExpression ≠ none ∧
    updateItem ⟨"foo", 5, 0⟩ (writeConditionWithGetRequest "foo" 0 0)
      = Except.ok ⟨"foo", 4, 1⟩ ∧
    (4 : Int) ≠ 6 := by
  exact ⟨by decide, rfl, by decide⟩

/-- C4 (amended): the write strategy performs a conditional decrement: every
call subtracts 1 from age and adds 1 to ver, guarded by
ver = observedVer AND age >= condition; for concurrency = 1 and
iterations = 1 on a record with age = 5 (ver 0, condition 0), a successful
run yields age = 4 with successCount = 1 and errorCount = 0.  The write
oracle of the run is derived from the store semantics of the request the
strategy builds. -/
theorem write_strategy_decrement_amended :
    updateItem ⟨"foo", 5, 0⟩ (writeConditionWithGetRequest "foo" 0 0)
      = Except.ok ⟨"foo", 4, 1⟩ ∧
    (condRun 1 1 1 (fun _ _ _ => ⟨none, none, ⟨"foo", 5, 0⟩⟩)
        (fun _ _ _ =>
          match updateItem ⟨"foo", 5, 0⟩ (writeConditionWithGetRequest "foo" 0 0) with
          | .ok _ => none
          | .error e => some e)).success = 1 ∧
    (condRun 1 1 1 (fun _ _ _ => ⟨none, none, ⟨"foo", 5, 0⟩⟩)
        (fun _ _ _ =>
          match updateItem ⟨"foo", 5, 0⟩ (writeConditionWithGetRequest "foo" 0 0) with
          | .ok _ => none
          | .error e => some e)).error = 0 := by
  exact ⟨rfl, rfl, rfl⟩

/-- C8: the average latency the summary reports equals the elapsed run
duration in milliseconds (Go truncating int64 division of the nanosecond
difference by 1e6) divided (again truncating) by the total number of logical
calls, where the total sums all four counter categories. -/
theorem average_latency_formula (startNano lastN nowA nowB nowC : Int)
    (cs : Counters) (h : 0 < totalLogicalCalls cs) :
    (runSummary startNano cs lastN nowA nowB nowC).averageMs
      = Int.tdiv (Int.tdiv (elapsedNano startNano nowC) 1000000)
          ((totalLogicalCalls cs : Nat) : Int) := by
  simp only [runSummary, totalLogicalCalls]
  push_cast
  ring_nf

/-- Witness for C8 at concrete counters and instants. -/
theorem average_latency_witness :
    (runSummary 0 ⟨1, 0, 0, 0⟩ 0 50 60 100).averageMs
      = Int.tdiv (Int.tdiv (elapsedNano 0 100) 1000000)
          ((totalLogicalCalls ⟨1, 0, 0, 0⟩ : Nat) : Int) :=
  average_latency_formula 0 0 50 60 100 ⟨1, 0, 0, 0⟩ (by decide)

/-- C7 (amended): a missing table name or record id makes main print the
usage text and terminate via os.Exit(0) — exit status zero, not non-zero —
before any worker is launched (the exit happens inside the validation
section, before the DynamoDBBenchmark value is even constructed). -/
theorem startup_validation_amended (action tableName id : String)
    (h : tableName = "" ∨ id = "") :
    (mainStartup action tableName id).2 = some 0 ∧
    StartupOutput.usageMessage ∈ (mainStartup action tableName id).1 := by
  unfold mainStartup
  rw [if_pos h]
  exact ⟨rfl, by simp⟩

/-- Counterexample to C7 as stated: with a missing table name the process
prints the diagnostics and the usage text and exits, but with status 0; no
non-zero exit status exists. -/
theorem startup_validation_counterexample :
    (mainStartup "read" "" "foo").1
      = [StartupOutput.invalidMinOptions, StartupOutput.usageMessage] ∧
    (mainStartup "read" "" "foo").2 = some 0 ∧
    ¬ ∃ code, (mainStartup "read" "" "foo").2 = some code ∧ code ≠ 0 := by
  refine ⟨rfl, rfl, ?_⟩
  rintro ⟨code, hc, hne⟩
  have h0 : some 0 = some code :=
    (show (mainStartup "read" "" "foo").2 = some 0 from rfl).symm.trans hc
  exact hne (Option.some.inj h0).symm

/-- Witness for C7 (amended) at a concrete empty table name. -/
theorem startup_validation_witness :
    (mainStartup "write-transaction" "" "bar").2 = some 0 ∧
    StartupOutput.usageMessage ∈ (mainStartup "write-transaction" "" "bar").1 :=
  startup_validation_amended "write-transaction" "" "bar" (Or.inl rfl)

/-- C2 evaluated on the code: the transactional worker builds the
ClientRequestToken inside the retried closure (twii(i) is called on every
attempt, part_000 line 287), so two attempts of the same logical iteration
(worker 1, iteration 1) consume two RandomString results and submit two
different tokens — the token is regenerated per attempt, not generated once
per iteration and reused. -/
theorem token_regenerated_per_attempt :
    (txnIteration 2 0 1 1 (fun m => if m = 0 then "aaaaaaaaaa" else "bbbbbbbbbb") 0
        (fun j => if j = 0 then
            some "ProvisionedThroughputExceededException" else none)).1
      = ["0_1_1_aaaaaaaaaa", "0_1_1_bbbbbbbbbb"] ∧
    ("0_1_1_aaaaaaaaaa" : String) ≠ "0_1_1_bbbbbbbbbb" := by
  exact ⟨by decide, by decide⟩

/-- Witness for C1: concrete instances of both halves of the contract, for
maxAttempts = 2 with an operation failing once then succeeding, and with an
operation that always fails. -/
theorem retry_contract_witness :
    retry 2 (fun i => if i = 0 then some "E0" else none) = (none, 2) ∧
    retry 2 (fun _ => some "E") =
      (some ("after " ++ toString 2 ++ " attempts, last error: " ++ "E"), 2) := by
  constructor
  · exact (retry_contract 2 (fun i => if i = 0 then some "E0" else none)
      (by decide)).1 1 (by decide) (by decide) rfl
  · obtain ⟨e, he, hr, -⟩ :=
      (retry_contract 2 (fun _ => some "E") (by decide)).2 (fun _ => rfl)
    have : e = "E" := by simpa using he.symm
    subst this
    simpa [retryAfterMsg] using hr

end DynBench
